import Mathlib

/-
Verification development for the pawvent-frontend walking-session tracker.

The definitions below are shallow embeddings of the TypeScript source:
  - `calculateDistance`, `gpsCallback`  : src/pages/CommunityDetail.tsx (WalkSession)
  - `tick`, `pauseWalk`                 : the one-second timer effect and pause toggle
  - `startWalk`, `stopWalk`             : the session start/stop handlers
  - the response interceptor / localStorage model : src/lib/api.ts
  - the map marker state machine        : src/components/KakaoMap.tsx

JavaScript numbers are idealised as real numbers (for coordinates and
haversine arithmetic) or as integers (for the accumulator state, which
is always the result of Math.round and hence integral).  Math.round is
embedded as Mathlib round, which satisfies round x = floor (x + 1/2),
the same convention as JavaScript for all reals.
-/

namespace Pawvent

/-- Embedding of JavaScript Math.atan2 over the reals. -/
noncomputable def atan2 (y x : ℝ) : ℝ :=
  if 0 < x then Real.arctan (y / x)
  else if x < 0 ∧ 0 ≤ y then Real.arctan (y / x) + Real.pi
  else if x < 0 ∧ y < 0 then Real.arctan (y / x) - Real.pi
  else if x = 0 ∧ 0 < y then Real.pi / 2
  else if x = 0 ∧ y < 0 then -(Real.pi / 2)
  else 0

/-- GPS sample: latitude, longitude (degrees) and capture time in ms
(the `Position` interface used by the WalkSession component). -/
structure Position where
  lat : ℝ
  lng : ℝ
  timestamp : ℤ

/-- Haversine great-circle distance, embedding `calculateDistance` from
src/pages/CommunityDetail.tsx: Earth radius 6371000 m. -/
noncomputable def calculateDistance (pos1 pos2 : Position) : ℝ :=
  let R : ℝ := 6371000
  let dLat := (pos2.lat - pos1.lat) * Real.pi / 180
  let dLng := (pos2.lng - pos1.lng) * Real.pi / 180
  let a :=
    Real.sin (dLat / 2) * Real.sin (dLat / 2) +
    Real.cos (pos1.lat * Real.pi / 180) * Real.cos (pos2.lat * Real.pi / 180) *
    Real.sin (dLng / 2) * Real.sin (dLng / 2)
  let c := 2 * atan2 (Real.sqrt a) (Real.sqrt (1 - a))
  R * c

/-- First sample of the reference scenario of the spec. -/
def testP1 : Position := { lat := 37.5665, lng := 126.9780, timestamp := 0 }

/-- Second sample of the reference scenario, 5 seconds later. -/
def testP2 : Position := { lat := 37.5670, lng := 126.9780, timestamp := 5000 }

/-- A sample at the coordinates of testP1 captured one second later:
GPS jitter while stationary. -/
def testP1Jitter : Position := { lat := 37.5665, lng := 126.9780, timestamp := 1000 }

/-- Local state of the WalkSession component (the React useState hooks and
refs of src/pages/CommunityDetail.tsx).  `distance` and `stepCount` are
integers because every assignment to them is a Math.round result. -/
structure WalkState where
  isWalking : Bool
  isPaused : Bool
  currentSessionId : Option ℤ
  startTime : Option ℤ
  elapsedTime : ℤ
  distance : ℤ
  stepCount : ℤ
  positions : List Position
  lastPosition : Option Position

/-- The watchPosition success callback of the WalkSession GPS effect:
computes the haversine segment from the last stored position, accepts the
segment only when it exceeds 5 m, and unconditionally stores the new
position as the last position. -/
noncomputable def gpsCallback (s : WalkState) (newPosition : Position) : WalkState :=
  match s.lastPosition with
  | some lastP =>
    let segmentDistance := calculateDistance lastP newPosition
    if 5 < segmentDistance then
      { s with
        positions := s.positions ++ [newPosition]
        distance := round ((s.distance : ℝ) + segmentDistance)
        stepCount := round ((s.stepCount : ℝ) + segmentDistance / 0.7)
        lastPosition := some newPosition }
    else
      { s with lastPosition := some newPosition }
  | none =>
    { s with positions := s.positions ++ [newPosition], lastPosition := some newPosition }

/-- One firing of the one-second interval of the timer effect.  The effect
installs the interval only while isWalking, not isPaused, and startTime is
set; otherwise no interval exists, which we embed as the tick leaving the
state unchanged.  The callback sets elapsedTime to
Math.floor((Date.now() - startTime) / 1000); Math.floor of the real
quotient equals flooring division of the millisecond integers. -/
def tick (s : WalkState) (now : ℤ) : WalkState :=
  match s.startTime with
  | some st =>
    if s.isWalking ∧ ¬s.isPaused then { s with elapsedTime := Int.fdiv (now - st) 1000 } else s
  | none => s

/-- The pauseWalk handler: toggles isPaused and nothing else. -/
def pauseWalk (s : WalkState) : WalkState :=
  { s with isPaused := !s.isPaused }

/-- JavaScript string truthiness for the patterns a || b used by the error
handlers: the empty string is falsy. -/
def jsOrStr (a b : String) : String := if a = "" then b else a

/-- JavaScript truthiness of a possibly-absent string field. -/
def jsTruthy : Option String → Bool
  | some s => s ≠ ""
  | none => false

/-- A shared walk route as far as the session start cares: its id. -/
structure WalkRoute where
  id : ℤ

/-- Body of the POST /walk-sessions/start request as built by
walkSessionApi.start: petId always present, routeId only when the passed
value is neither undefined nor null. -/
structure StartRequest where
  petId : ℤ
  routeId : Option ℤ

/-- The routeId chosen by startWalk before the call:
selectedRouteId || (routes.length > 0 ? routes[0].id : null), with
JavaScript numeric truthiness (0 is falsy). -/
def chosenRouteId (selectedRouteId : Option ℤ) (routes : List WalkRoute) : Option ℤ :=
  let fallback : Option ℤ := (routes.head?).map WalkRoute.id
  match selectedRouteId with
  | some x => if x = 0 then fallback else some x
  | none => fallback

/-- The request walkSessionApi.start sends for a startWalk invocation:
petId is the literal 1; the routeId argument is routeId || undefined, so a
null or 0 routeId is omitted from the body. -/
def startRequest (selectedRouteId : Option ℤ) (routes : List WalkRoute) : StartRequest :=
  { petId := 1
    routeId :=
      match chosenRouteId selectedRouteId routes with
      | some x => if x = 0 then none else some x
      | none => none }

/-- Outcome of the start-session server call as observed by startWalk. -/
inductive StartResult where
  | ok (sessionId : ℤ)
  | declined (message : String)
  | netError (dataMessage : Option String) (dataData : Option String)
      (errMessage : String) (status : Option ℕ)

/-- The errorMessage computed in the catch block of startWalk. -/
def startErrorMessage : StartResult → String
  | .ok _ => ""
  | .declined m => jsOrStr (jsOrStr m "알 수 없는 오류가 발생했습니다.") "산책 시작에 실패했습니다."
  | .netError dm dd em _ =>
    if jsTruthy dm then dm.getD "" else
    if jsTruthy dd then dd.getD "" else
    jsOrStr em "산책 시작에 실패했습니다."

/-- The status code shown in the startWalk failure alert. -/
def startStatusText : StartResult → String
  | .netError _ _ _ (some n) => toString n
  | _ => "N/A"

/-- The startWalk handler: issues one start request; on success (success
true with data) becomes Active with a zeroed accumulator; on any failure
leaves every state field unchanged and raises one alert embedding the
computed error message.  Returns (state, alert, issued requests). -/
def startWalk (s : WalkState) (selectedRouteId : Option ℤ) (routes : List WalkRoute)
    (result : StartResult) (now : ℤ) : WalkState × Option String × List StartRequest :=
  let req := startRequest selectedRouteId routes
  match result with
  | .ok sessionId =>
    ({ isWalking := true
       isPaused := false
       currentSessionId := some sessionId
       startTime := some now
       elapsedTime := 0
       distance := 0
       stepCount := 0
       positions := []
       lastPosition := none }, none, [req])
  | r =>
    (s, some ("산책 시작에 실패했습니다.\n\n" ++ startErrorMessage r ++ "\n\n상태 코드: "
      ++ startStatusText r), [req])

/-- Outcome of the complete-session server call as observed by stopWalk. -/
inductive CompleteResult where
  | ok
  | declined (message : String)
  | netError (dataMessage : Option String) (errMessage : String)

/-- Query parameters of POST /walk-sessions/{id}/complete. -/
structure CompleteRequest where
  sessionId : ℤ
  distance : ℤ
  duration : ℤ
  calories : ℤ

/-- The errorMessage computed in the catch block of stopWalk:
error.response?.data?.message || error.message || fallback, where the
declined branch throws Error(response.message || fallback2). -/
def stopErrorMessage : CompleteResult → String
  | .ok => ""
  | .declined m => jsOrStr (jsOrStr m "산책 완료에 실패했습니다.") "산책 완료 처리에 실패했습니다."
  | .netError dm em =>
    if jsTruthy dm then dm.getD "" else jsOrStr em "산책 완료 처리에 실패했습니다."

/-- The stopWalk handler: without a session id or start time it only
alerts; otherwise it sends one complete request carrying the rounded
distance, the elapsed seconds and calories = round(distance * 0.05); on
success it resets all local walk state; on failure it leaves every field
unchanged and raises one alert.  Returns (state, alert, issued requests).
The interpolated distance/time tail of the success alert is elided. -/
def stopWalk (s : WalkState) (result : CompleteResult) :
    WalkState × Option String × List CompleteRequest :=
  match s.currentSessionId, s.startTime with
  | some sessionId, some _ =>
    let distanceMeters := s.distance
    let durationSeconds := s.elapsedTime
    let calories := round ((distanceMeters : ℚ) * 0.05)
    let req : CompleteRequest :=
      { sessionId := sessionId, distance := distanceMeters
        duration := durationSeconds, calories := calories }
    match result with
    | .ok =>
      ({ s with
          isWalking := false
          isPaused := false
          currentSessionId := none
          startTime := none
          elapsedTime := 0
          distance := 0
          stepCount := 0
          positions := []
          lastPosition := none },
        some "산책이 완료되었습니다!", [req])
    | r => (s, some ("산책 완료 실패: " ++ stopErrorMessage r), [req])
  | _, _ => (s, some "산책 세션 정보가 없습니다.", [])

/-- The WalkSession state before any session is started. -/
def idleState : WalkState :=
  { isWalking := false, isPaused := false, currentSessionId := none
    startTime := none, elapsedTime := 0, distance := 0, stepCount := 0
    positions := [], lastPosition := none }

/-- An active session that has recorded its first sample and not moved. -/
def stationaryState : WalkState :=
  { isWalking := true, isPaused := false, currentSessionId := some 1
    startTime := some 0, elapsedTime := 0, distance := 0, stepCount := 0
    positions := [testP1], lastPosition := some testP1 }

/-- An active session with accumulated distance, steps and time. -/
def walkedState : WalkState :=
  { isWalking := true, isPaused := false, currentSessionId := some 1
    startTime := some 0, elapsedTime := 60, distance := 100, stepCount := 143
    positions := [testP1], lastPosition := some testP1 }

/-- The identity fields kept in browser localStorage (src/lib/api.ts). -/
structure LocalStorage where
  authToken : Option String
  userId : Option String
  userNickname : Option String
  userEmail : Option String
  userProfileImageUrl : Option String
deriving DecidableEq

/-- All five identity fields removed. -/
def clearedStorage : LocalStorage :=
  { authToken := none, userId := none, userNickname := none
    userEmail := none, userProfileImageUrl := none }

/-- A storage with every identity field present. -/
def sampleStorage : LocalStorage :=
  { authToken := some "tok", userId := some "7", userNickname := some "nick"
    userEmail := some "user@pawvent.app", userProfileImageUrl := some "img.png" }

/-- The apiClient response interceptor error handler: on HTTP 401 or 403 it
removes the five identity fields and assigns window.location.href = /login
unless the current path already is /login.  Returns the new storage and
the number of navigations performed. -/
def responseInterceptorOnError (status : Option ℕ) (pathname : String)
    (store : LocalStorage) : LocalStorage × ℕ :=
  if status = some 401 ∨ status = some 403 then
    (clearedStorage, if pathname ≠ "/login" then 1 else 0)
  else (store, 0)

/-- The HTTP call sites of src/lib/api.ts (plus the hazard fetch of
KakaoMap.tsx, which also performs an HTTP request). -/
inductive ApiCallSite where
  | authTest | authKakaoLogin | authGetCurrentUser
  | walkSessionStart | walkSessionComplete | walkSessionGetMySessions
  | walkSessionGetRecent | walkSessionGetStats | walkSessionGetActive
  | walkRouteGetMyRoutes | walkRouteGetSharedRoutes | walkRouteCreate
  | userGetMe | userGetById
  | fileUploadPetImage
  | communityCreate | communityUpdate | communityDelete | communityGetById
  | communityList
  | kakaoMapHazardsNearby
deriving DecidableEq

/-- Whether a call site sends its request through the shared apiClient
axios instance (and therefore through its response interceptor).
fileApi.uploadPetImage and the KakaoMap hazard fetch call the bare axios
module directly. -/
def usesApiClient : ApiCallSite → Bool
  | .fileUploadPetImage => false
  | .kakaoMapHazardsNearby => false
  | _ => true

/-- Effect of an HTTP error status arriving for a given call site: only
calls routed through apiClient reach the response interceptor. -/
def handleHttpError (site : ApiCallSite) (status : Option ℕ) (pathname : String)
    (store : LocalStorage) : LocalStorage × ℕ :=
  if usesApiClient site then responseInterceptorOnError status pathname store
  else (store, 0)

/-- A latitude/longitude pair as handled by the map component; the map
does no arithmetic on coordinates, so rationals embed them faithfully. -/
structure LatLng where
  lat : ℚ
  lng : ℚ
deriving DecidableEq

/-- State of the KakaoMap self-location marker: the manually-adjusted flag
ref and the currentLocation state (none until a first fix). -/
structure MapState where
  isManuallyAdjusted : Bool
  currentLocation : Option LatLng
deriving DecidableEq

/-- Success callback of watchPosition (and of the initial
getCurrentPosition): ignored entirely while manually adjusted, otherwise
stores the fix as the current location. -/
def mapGpsFix (s : MapState) (p : LatLng) : MapState :=
  if s.isManuallyAdjusted then s else { s with currentLocation := some p }

/-- The dragstart listener of the self-location marker. -/
def mapDragStart (s : MapState) : MapState :=
  { s with isManuallyAdjusted := true }

/-- The dragend listener: keeps manually-adjusted mode and commits the
dragged coordinate. -/
def mapDragEnd (s : MapState) (p : LatLng) : MapState :=
  { s with isManuallyAdjusted := true, currentLocation := some p }

/-- The moveToCurrentLocation handler (the "current location" button):
clears manually-adjusted mode and requests a fresh fix; when the platform
delivers one it becomes the current location, otherwise the old location
is kept. -/
def mapReturnToGps (s : MapState) (freshFix : Option LatLng) : MapState :=
  let s1 : MapState := { s with isManuallyAdjusted := false }
  match freshFix with
  | some p => { s1 with currentLocation := some p }
  | none => s1

/-- A hazard record as fetched from GET /hazards/nearby. -/
structure HazardData where
  id : ℤ
  category : String
  description : String
  latitude : ℚ
  longitude : ℚ
deriving DecidableEq

/-- A concrete hazard used in counterexamples. -/
def sampleHazard : HazardData :=
  { id := 1, category := "LEASH", description := "hazard", latitude := 37, longitude := 127 }

/-- Query of the hazard fetch in KakaoMap.tsx: centred on the current
location when set, the centre props otherwise, radius always 2000. -/
structure HazardRequest where
  latitude : ℚ
  longitude : ℚ
  radius : ℚ
deriving DecidableEq

/-- The request issued by the fetchHazards effect. -/
def hazardRequest (currentLocation : Option LatLng) (centerLat centerLng : ℚ) :
    HazardRequest :=
  { latitude := (currentLocation.map LatLng.lat).getD centerLat
    longitude := (currentLocation.map LatLng.lng).getD centerLng
    radius := 2000 }

/-- Result of the hazard fetch on the hazards state: only a success
response carrying a data field replaces the list (an empty array is truthy
in JavaScript, so it does replace). -/
def fetchHazardsUpdate (hazards : List HazardData)
    (response : Option (List HazardData)) : List HazardData :=
  match response with
  | some hs => hs
  | none => hazards

/-- The hazard-marker effect: when the hazards state is empty it returns
before touching the marker set; otherwise it removes every existing marker
and renders one marker per hazard.  Markers are represented by the hazard
list they display. -/
def renderHazardMarkers (hazards : List HazardData) (markers : List HazardData) :
    List HazardData :=
  if hazards.length = 0 then markers else hazards

theorem atan2_of_pos {y x : ℝ} (hx : 0 < x) : atan2 y x = Real.arctan (y / x) := by
  simp [atan2, hx]

/-- At equal longitudes and a small nonnegative latitude increase, the
haversine collapses to radius times the latitude difference in radians. -/
theorem calculateDistance_eq_lng {pos1 pos2 : Position} (hlng : pos2.lng = pos1.lng)
    (h0 : 0 ≤ pos2.lat - pos1.lat) (hlt : (pos2.lat - pos1.lat) * Real.pi / 180 < Real.pi) :
    calculateDistance pos1 pos2 = 6371000 * ((pos2.lat - pos1.lat) * Real.pi / 180) := by
  have hpi := Real.pi_pos
  set θ : ℝ := (pos2.lat - pos1.lat) * Real.pi / 180 / 2 with hθdef
  have hθ0 : 0 ≤ θ := by
    have : 0 ≤ (pos2.lat - pos1.lat) * Real.pi / 180 := by positivity
    simpa [hθdef] using by linarith
  have hθlt : θ < Real.pi / 2 := by
    simp only [hθdef]
    linarith
  have hsin : 0 ≤ Real.sin θ := Real.sin_nonneg_of_nonneg_of_le_pi hθ0 (by linarith)
  have hcos : 0 < Real.cos θ :=
    Real.cos_pos_of_mem_Ioo ⟨by linarith, hθlt⟩
  have hsq : 1 - Real.sin θ * Real.sin θ = Real.cos θ * Real.cos θ := by
    have := Real.sin_sq_add_cos_sq θ
    nlinarith [this]
  unfold calculateDistance
  rw [hlng]
  simp only [sub_self, zero_mul, zero_div, Real.sin_zero, mul_zero, add_zero]
  have h2 : (pos2.lat - pos1.lat) * Real.pi / 180 / 2 = θ := rfl
  rw [h2, hsq, Real.sqrt_mul_self hsin, Real.sqrt_mul_self hcos.le,
    atan2_of_pos hcos, ← Real.tan_eq_sin_div_cos, Real.arctan_tan (by linarith) hθlt]
  simp only [hθdef]
  ring

/-- Haversine distance from a point to itself is zero. -/
theorem calculateDistance_self (p q : Position) (hlat : q.lat = p.lat)
    (hlng : q.lng = p.lng) : calculateDistance p q = 0 := by
  unfold calculateDistance
  rw [hlat, hlng]
  simp [atan2_of_pos, Real.sqrt_one]

theorem testSeg_eq :
    calculateDistance testP1 testP2 = 6371000 * (0.0005 * Real.pi / 180) := by
  have h := @calculateDistance_eq_lng testP1 testP2 rfl
    (by norm_num [testP1, testP2])
    (by
      have hpi := Real.pi_pos
      have : (testP2.lat - testP1.lat) = 0.0005 := by norm_num [testP1, testP2]
      rw [this]
      nlinarith)
  rw [h]
  norm_num [testP1, testP2]

theorem testSeg_bounds :
    55.59 < calculateDistance testP1 testP2 ∧ calculateDistance testP1 testP2 < 55.6 := by
  rw [testSeg_eq]
  have h1 := Real.pi_gt_d6
  have h2 := Real.pi_lt_d6
  constructor <;> nlinarith

theorem gpsCallback_rejected (s : WalkState) (p lastP : Position)
    (hlast : s.lastPosition = some lastP) (hseg : calculateDistance lastP p ≤ 5) :
    (gpsCallback s p).distance = s.distance ∧
    (gpsCallback s p).stepCount = s.stepCount ∧
    (gpsCallback s p).positions = s.positions ∧
    (gpsCallback s p).lastPosition = some p := by
  simp [gpsCallback, hlast, not_lt.mpr hseg]

theorem gpsCallback_accepted (s : WalkState) (p lastP : Position)
    (hlast : s.lastPosition = some lastP) (hseg : 5 < calculateDistance lastP p) :
    (gpsCallback s p).distance = round ((s.distance : ℝ) + calculateDistance lastP p) ∧
    (gpsCallback s p).stepCount = round ((s.stepCount : ℝ) + calculateDistance lastP p / 0.7) ∧
    (gpsCallback s p).positions = s.positions ++ [p] ∧
    (gpsCallback s p).lastPosition = some p := by
  simp [gpsCallback, hlast, hseg]

theorem round_add_int_le (d : ℤ) (x : ℝ) (hx : 0 ≤ x) : d ≤ round ((d : ℝ) + x) := by
  have : round ((d : ℝ)) ≤ round ((d : ℝ) + x) := by
    rw [round_eq, round_eq]
    exact Int.floor_le_floor (by linarith)
  simpa using this

theorem gpsCallback_mono (s : WalkState) (p : Position) :
    s.distance ≤ (gpsCallback s p).distance ∧ s.stepCount ≤ (gpsCallback s p).stepCount := by
  unfold gpsCallback
  cases hlast : s.lastPosition with
  | none => simp
  | some lastP =>
    by_cases hseg : 5 < calculateDistance lastP p
    · simp only [hseg, if_pos]
      refine ⟨round_add_int_le _ _ (by linarith), round_add_int_le _ _ ?_⟩
      have h07 : (0:ℝ) < 0.7 := by norm_num
      have : (0:ℝ) ≤ calculateDistance lastP p := by linarith
      positivity
    · simp [hseg]

theorem mapGpsFix_foldl_manual (fixes : List LatLng) (s : MapState)
    (h : s.isManuallyAdjusted = true) : List.foldl mapGpsFix s fixes = s := by
  induction fixes with
  | nil => rfl
  | cons f fs ih =>
    rw [List.foldl_cons]
    have hfix : mapGpsFix s f = s := by simp [mapGpsFix, h]
    rw [hfix, ih]

/-- C1 counterexample: a jitter sample at an identical coordinate has
segment distance 0 ≤ 5, yet the stored last position is replaced by the
new sample (the assignment to lastPositionRef is outside the noise
filter), contradicting the claim that it is left unchanged. -/
theorem walk_noise_filter_counterexample :
    calculateDistance testP1 testP1Jitter ≤ 5 ∧
    stationaryState.lastPosition = some testP1 ∧
    (gpsCallback stationaryState testP1Jitter).lastPosition ≠ stationaryState.lastPosition := by
  have h0 : calculateDistance testP1 testP1Jitter = 0 := calculateDistance_self _ _ rfl rfl
  have hle : calculateDistance testP1 testP1Jitter ≤ 5 := by rw [h0]; norm_num
  refine ⟨hle, rfl, ?_⟩
  have hstep := gpsCallback_rejected stationaryState testP1Jitter testP1 rfl hle
  rw [hstep.2.2.2]
  intro hcontra
  have heq : testP1Jitter = testP1 := by
    have : stationaryState.lastPosition = some testP1 := rfl
    rw [this] at hcontra
    exact Option.some.inj hcontra
  have := congrArg Position.timestamp heq
  simp [testP1, testP1Jitter] at this

/-- C1 (amended): a segment ≤ 5 m leaves totalDistanceMeters,
stepCountEstimate and the positions log unchanged but still overwrites the
stored last position with the new sample; a segment > 5 m increases the
distance by the rounded segment, the steps by round(segment / 0.7),
appends the sample and stores it as the last position. -/
theorem walk_noise_filter_update (s : WalkState) (p lastP : Position)
    (hlast : s.lastPosition = some lastP) :
    (calculateDistance lastP p ≤ 5 →
      (gpsCallback s p).distance = s.distance ∧
      (gpsCallback s p).stepCount = s.stepCount ∧
      (gpsCallback s p).positions = s.positions ∧
      (gpsCallback s p).lastPosition = some p) ∧
    (5 < calculateDistance lastP p →
      (gpsCallback s p).distance = s.distance + round (calculateDistance lastP p) ∧
      (gpsCallback s p).stepCount = s.stepCount + round (calculateDistance lastP p / 0.7) ∧
      (gpsCallback s p).positions = s.positions ++ [p] ∧
      (gpsCallback s p).lastPosition = some p) := by
  constructor
  · intro hle
    exact gpsCallback_rejected s p lastP hlast hle
  · intro hgt
    have h := gpsCallback_accepted s p lastP hlast hgt
    refine ⟨?_, ?_, h.2.2.1, h.2.2.2⟩
    · rw [h.1, round_int_add]
    · rw [h.2.1, round_int_add]

/-- C1 witness: the amended update theorem applied to the stationary state
and the jitter sample. -/
theorem walk_noise_filter_update_witness :
    (gpsCallback stationaryState testP1Jitter).distance = stationaryState.distance ∧
    (gpsCallback stationaryState testP1Jitter).lastPosition = some testP1Jitter := by
  have h0 : calculateDistance testP1 testP1Jitter = 0 := calculateDistance_self _ _ rfl rfl
  have h := (walk_noise_filter_update stationaryState testP1Jitter testP1 rfl).1
    (by rw [h0]; norm_num)
  exact ⟨h.1, h.2.2.2⟩

/-- C2 counterexample: starting at time 0, a tick at 10 s shows 10; while
paused the value stays 10; resuming at 70 s, the first tick at 71 s shows
71, not the frozen value plus one second (11) — the ticker recomputes
now - startedAt, so the paused minute is included. -/
theorem walk_timer_counterexample :
    (pauseWalk (tick stationaryState 10000)).elapsedTime = 10 ∧
    (tick (pauseWalk (tick stationaryState 10000)) 40000).elapsedTime = 10 ∧
    (tick (pauseWalk (tick (pauseWalk (tick stationaryState 10000)) 40000)) 71000).elapsedTime
      = 71 ∧
    (71 : ℤ) ≠ 10 + 1 := by
  refine ⟨rfl, rfl, rfl, by decide⟩

/-- C2 (amended): while Active the ticker recomputes
elapsedSeconds = floor((now - startedAt) / 1000) and advances by one per
elapsed second; while Paused no tick fires and pausing itself leaves the
value frozen; after resume the ticker again recomputes from startedAt, so
the value is not reset to zero but jumps forward by the paused duration. -/
theorem walk_timer (s : WalkState) (st now : ℤ) (hst : s.startTime = some st)
    (hw : s.isWalking = true) :
    (s.isPaused = false →
      (tick s now).elapsedTime = Int.fdiv (now - st) 1000 ∧
      (tick (tick s now) (now + 1000)).elapsedTime = Int.fdiv (now - st) 1000 + 1) ∧
    (s.isPaused = true → tick s now = s) ∧
    (pauseWalk s).elapsedTime = s.elapsedTime := by
  refine ⟨?_, ?_, rfl⟩
  · intro hp
    have h1 : tick s now = { s with elapsedTime := Int.fdiv (now - st) 1000 } := by
      simp [tick, hst, hw, hp]
    have h4 : Int.fdiv (now + 1000 - st) 1000 = Int.fdiv (now - st) 1000 + 1 := by
      have e : now + 1000 - st = (now - st) + 1 * 1000 := by ring
      rw [e, Int.fdiv_eq_ediv _ (by norm_num), Int.fdiv_eq_ediv _ (by norm_num),
        Int.add_mul_ediv_right _ _ (by norm_num)]
    constructor
    · rw [h1]
    · rw [h1]
      simp only [tick, hst, hw, hp]
      simpa using h4
  · intro hp
    simp [tick, hst, hp]

/-- C2 witness: the timer theorem applied to the stationary active state
at 10 seconds. -/
theorem walk_timer_witness :
    (tick stationaryState 10000).elapsedTime = Int.fdiv (10000 - 0) 1000 ∧
    (pauseWalk stationaryState).elapsedTime = stationaryState.elapsedTime := by
  have h := walk_timer stationaryState 0 10000 rfl rfl
  exact ⟨(h.1 rfl).1, h.2.2⟩

/-- C3: from the just-started session, the two reference samples yield one
accepted segment computed by the haversine formula with radius 6371000
(about 55.6 m), an accumulated distance of 56 m and 79 estimated steps. -/
theorem walk_scenario_two_samples :
    55.59 < calculateDistance testP1 testP2 ∧ calculateDistance testP1 testP2 < 55.6 ∧
    (gpsCallback (gpsCallback (startWalk idleState none [] (.ok 1) 0).1 testP1)
      testP2).distance = 56 ∧
    (gpsCallback (gpsCallback (startWalk idleState none [] (.ok 1) 0).1 testP1)
      testP2).stepCount = 79 ∧
    (gpsCallback (gpsCallback (startWalk idleState none [] (.ok 1) 0).1 testP1)
      testP2).positions.length = 2 := by
  obtain ⟨hlow, hhigh⟩ := testSeg_bounds
  have hgt : 5 < calculateDistance testP1 testP2 := by linarith
  set s0 : WalkState := (startWalk idleState none [] (.ok 1) 0).1 with hs0
  have hs0fields : s0.lastPosition = none ∧ s0.positions = [] ∧ s0.distance = 0 ∧
      s0.stepCount = 0 := ⟨rfl, rfl, rfl, rfl⟩
  have h1 : gpsCallback s0 testP1 =
      { s0 with positions := s0.positions ++ [testP1], lastPosition := some testP1 } := by
    simp [gpsCallback, hs0fields.1]
  have h2 := gpsCallback_accepted (gpsCallback s0 testP1) testP2 testP1
    (by rw [h1]) hgt
  have hdist : (gpsCallback s0 testP1).distance = 0 := by rw [h1]; exact hs0fields.2.2.1
  have hstep : (gpsCallback s0 testP1).stepCount = 0 := by rw [h1]; exact hs0fields.2.2.2
  have hpos : (gpsCallback s0 testP1).positions = [testP1] := by
    rw [h1]; rw [hs0fields.2.1]; rfl
  refine ⟨hlow, hhigh, ?_, ?_, ?_⟩
  · rw [h2.1, hdist]
    rw [round_eq]
    rw [Int.floor_eq_iff]
    constructor
    · push_cast
      linarith
    · push_cast
      linarith
  · rw [h2.2.1, hstep]
    rw [round_eq]
    rw [Int.floor_eq_iff]
    have h07 : (0:ℝ) < 0.7 := by norm_num
    have hdivlow : (78.5 : ℝ) ≤ calculateDistance testP1 testP2 / 0.7 := by
      rw [le_div_iff₀ h07]
      linarith
    have hdivhigh : calculateDistance testP1 testP2 / 0.7 < (79.5 : ℝ) := by
      rw [div_lt_iff₀ h07]
      linarith
    constructor
    · push_cast
      linarith
    · push_cast
      linarith
  · rw [h2.2.2.1, hpos]
    rfl

/-- C4: when the complete-session call fails (thrown network error or a
success=false response), stopWalk leaves the whole local state — session
id, start time, distance, step count, elapsed time — exactly as it was,
raises one error alert, and has issued exactly one request (no retry). -/
theorem stop_failure_preserves_state (s : WalkState) (sid st : ℤ) (r : CompleteResult)
    (hsid : s.currentSessionId = some sid) (hst : s.startTime = some st)
    (hr : r ≠ CompleteResult.ok) :
    (stopWalk s r).1 = s ∧
    (stopWalk s r).2.1 = some ("산책 완료 실패: " ++ stopErrorMessage r) ∧
    (stopWalk s r).2.2 =
      [{ sessionId := sid, distance := s.distance, duration := s.elapsedTime,
         calories := round ((s.distance : ℚ) * 0.05) }] := by
  cases r with
  | ok => exact absurd rfl hr
  | declined m => simp [stopWalk, hsid, hst]
  | netError dm em => simp [stopWalk, hsid, hst]

/-- C4 witness: a failed completion of a session with 100 m and 60 s
accumulated leaves the state intact. -/
theorem stop_failure_preserves_state_witness :
    (stopWalk walkedState (.declined "server down")).1 = walkedState ∧
    (stopWalk walkedState (.declined "server down")).2.1 =
      some "산책 완료 실패: server down" := by
  have h := stop_failure_preserves_state walkedState 1 0 (.declined "server down")
    rfl rfl (by intro hcontra; exact CompleteResult.noConfusion hcontra)
  refine ⟨h.1, ?_⟩
  rw [h.2.1]
  rfl

/-- C5: a declined or failed start-session call leaves the state exactly
as it was (still Idle when it was Idle: no session id gained, no timers,
accumulator untouched) and surfaces the server message verbatim inside
the alert; only a success response yields the Active state with a zeroed
accumulator and no alert. -/
theorem start_failure_and_success (s : WalkState) (sel : Option ℤ)
    (routes : List WalkRoute) (now : ℤ) :
    (∀ r : StartResult, (∀ sid : ℤ, r ≠ .ok sid) →
      (startWalk s sel routes r now).1 = s ∧
      (startWalk s sel routes r now).2.1 =
        some ("산책 시작에 실패했습니다.\n\n" ++ startErrorMessage r ++ "\n\n상태 코드: "
          ++ startStatusText r)) ∧
    (∀ m : String, m ≠ "" →
      (startWalk s sel routes (.declined m) now).1 = s ∧
      (startWalk s sel routes (.declined m) now).2.1 =
        some ("산책 시작에 실패했습니다.\n\n" ++ m ++ "\n\n상태 코드: N/A")) ∧
    (∀ (dm : String) (dd : Option String) (em : String) (st : Option ℕ), dm ≠ "" →
      (startWalk s sel routes (.netError (some dm) dd em st) now).1 = s ∧
      (startWalk s sel routes (.netError (some dm) dd em st) now).2.1 =
        some ("산책 시작에 실패했습니다.\n\n" ++ dm ++ "\n\n상태 코드: "
          ++ startStatusText (.netError (some dm) dd em st))) ∧
    (∀ sid : ℤ,
      (startWalk s sel routes (.ok sid) now).1 =
        { isWalking := true, isPaused := false, currentSessionId := some sid,
          startTime := some now, elapsedTime := 0, distance := 0, stepCount := 0,
          positions := [], lastPosition := none } ∧
      (startWalk s sel routes (.ok sid) now).2.1 = none) := by
  refine ⟨?_, ?_, ?_, ?_⟩
  · intro r hr
    cases r with
    | ok sid => exact absurd rfl (hr sid)
    | declined m => exact ⟨rfl, rfl⟩
    | netError dm dd em st => exact ⟨rfl, rfl⟩
  · intro m hm
    constructor
    · rfl
    · simp only [startWalk, startErrorMessage, startStatusText, jsOrStr, if_neg hm]
      rw [String.append_assoc ("산책 시작에 실패했습니다.\n\n" ++ m) "\n\n상태 코드: " "N/A"]
      rfl
  · intro dm dd em st hdm
    constructor
    · rfl
    · simp [startWalk, startErrorMessage, jsTruthy, hdm]
  · intro sid
    exact ⟨rfl, rfl⟩

/-- C5 witness: a pure network error with no server message, and a
declined start with message 서버 오류, both from the idle state. -/
theorem start_failure_and_success_witness :
    (startWalk idleState none [] (.netError none none "Network Error" none) 0).1 =
      idleState ∧
    (startWalk idleState none [] (.declined "서버 오류") 0).1 = idleState ∧
    (startWalk idleState none [] (.declined "서버 오류") 0).2.1 =
      some ("산책 시작에 실패했습니다.\n\n" ++ "서버 오류" ++ "\n\n상태 코드: N/A") := by
  refine ⟨?_, ?_, ?_⟩
  · exact ((start_failure_and_success idleState none [] 0).1
      (.netError none none "Network Error" none)
      (by intro sid hcontra; exact StartResult.noConfusion hcontra)).1
  · exact ((start_failure_and_success idleState none [] 0).2.1 "서버 오류" (by decide)).1
  · exact ((start_failure_and_success idleState none [] 0).2.1 "서버 오류" (by decide)).2

/-- C6 counterexample: fileApi.uploadPetImage posts through the bare axios
module, not apiClient, so a 401 there clears nothing and performs no
navigation — the claimed for-every-API-call guarantee fails. -/
theorem interceptor_counterexample :
    handleHttpError .fileUploadPetImage (some 401) "/profile" sampleStorage =
      (sampleStorage, 0) ∧
    sampleStorage ≠ clearedStorage := by
  decide

/-- C6 (amended): every call routed through the shared apiClient instance
that fails with HTTP 401 or 403 has all five cached identity fields
cleared by the single response interceptor, and navigates to the login
view exactly once unless the current path already is the login page;
fileApi.uploadPetImage (and the KakaoMap hazard fetch) bypass apiClient
and receive no such handling. -/
theorem interceptor_clears_identity (site : ApiCallSite) (status : Option ℕ)
    (pathname : String) (store : LocalStorage)
    (hsite : usesApiClient site = true)
    (hstatus : status = some 401 ∨ status = some 403) :
    handleHttpError site status pathname store =
      (clearedStorage, if pathname ≠ "/login" then 1 else 0) := by
  unfold handleHttpError responseInterceptorOnError
  rw [hsite]
  rcases hstatus with h | h <;> simp [h]

/-- C6 witness: a 401 on the start-session call from the map page clears
the identity fields and navigates once. -/
theorem interceptor_clears_identity_witness :
    handleHttpError .walkSessionStart (some 401) "/walk" sampleStorage =
      (clearedStorage, 1) := by
  have h := interceptor_clears_identity .walkSessionStart (some 401) "/walk"
    sampleStorage rfl (Or.inl rfl)
  simpa using h

/-- C7: after drag-start the marker is in manually-adjusted mode, any
sequence of GPS fixes leaves the marker state (current location included)
completely unchanged, drag-end keeps the mode, and the explicit
return-to-GPS action clears the mode and adopts the fresh fix. -/
theorem marker_manual_mode (s : MapState) (fixes : List LatLng) (p q : LatLng)
    (fresh : Option LatLng) :
    (mapDragStart s).isManuallyAdjusted = true ∧
    (mapDragEnd s p).isManuallyAdjusted = true ∧
    (∀ s2 : MapState, s2.isManuallyAdjusted = true →
      List.foldl mapGpsFix s2 fixes = s2) ∧
    (mapReturnToGps s fresh).isManuallyAdjusted = false ∧
    mapReturnToGps s (some q) =
      { isManuallyAdjusted := false, currentLocation := some q } := by
  refine ⟨rfl, rfl, ?_, ?_, rfl⟩
  · intro s2 h2
    exact mapGpsFix_foldl_manual fixes s2 h2
  · cases fresh <;> rfl

/-- C7 witness: two GPS fixes arriving after a drag leave the dragged
state untouched. -/
theorem marker_manual_mode_witness :
    List.foldl mapGpsFix
      { isManuallyAdjusted := true, currentLocation := some { lat := 37, lng := 127 } }
      [{ lat := 38, lng := 128 }, { lat := 39, lng := 129 }] =
    { isManuallyAdjusted := true, currentLocation := some { lat := 37, lng := 127 } } :=
  (marker_manual_mode
    { isManuallyAdjusted := true, currentLocation := some { lat := 37, lng := 127 } }
    [{ lat := 38, lng := 128 }, { lat := 39, lng := 129 }]
    { lat := 0, lng := 0 } { lat := 0, lng := 0 } none).2.2.1
    { isManuallyAdjusted := true, currentLocation := some { lat := 37, lng := 127 } } rfl

/-- C8 counterexample: a successful refresh that returns an empty list
does replace the hazards state (an empty array is truthy), but the marker
effect returns early on an empty list, so the previously rendered marker
remains — the rendered markers do not correspond to the fetched list. -/
theorem hazard_markers_counterexample :
    fetchHazardsUpdate [sampleHazard] (some []) = [] ∧
    renderHazardMarkers (fetchHazardsUpdate [sampleHazard] (some [])) [sampleHazard] =
      [sampleHazard] ∧
    [sampleHazard] ≠ ([] : List HazardData) := by
  decide

/-- C8 (amended): every hazard refresh requests a fixed 2000 m radius
around the current location; a successful fetch replaces the hazards
state wholesale, and the rendered marker set is replaced to match the
fetched list whenever that list is non-empty; an empty fetched list
leaves the previously rendered markers in place. -/
theorem hazard_refresh (loc : Option LatLng) (clat clng : ℚ)
    (hz markers hs : List HazardData) :
    (hazardRequest loc clat clng).radius = 2000 ∧
    fetchHazardsUpdate hz (some hs) = hs ∧
    (hs ≠ [] → renderHazardMarkers hs markers = hs) ∧
    renderHazardMarkers [] markers = markers := by
  refine ⟨rfl, rfl, ?_, rfl⟩
  intro hne
  unfold renderHazardMarkers
  rw [if_neg (by simpa [List.length_eq_zero] using hne)]

/-- C8 witness: a non-empty fetched list replaces the rendered markers. -/
theorem hazard_refresh_witness :
    renderHazardMarkers [sampleHazard] [] = [sampleHazard] :=
  (hazard_refresh none 0 0 [] [] [sampleHazard]).2.2.1 (by decide)

/-- C9 counterexample: a successful session completion — not a session
start — resets the accumulated 100 m and 143 steps to zero, so the
accumulator is reset outside of a new session start. -/
theorem accumulator_reset_counterexample :
    walkedState.distance = 100 ∧ walkedState.stepCount = 143 ∧
    (stopWalk walkedState .ok).1.distance = 0 ∧
    (stopWalk walkedState .ok).1.stepCount = 0 := by
  exact ⟨rfl, rfl, rfl, rfl⟩

/-- C9 (amended): distance and step count never decrease under any GPS
accumulator update; a successful session start zeroes them, a successful
session completion (with a session id and start time present) zeroes
them, every failed completion and every failed start leaves them exactly
unchanged, and pause and ticks leave them unchanged. -/
theorem accumulator_monotonic (s : WalkState) (p : Position) (sel : Option ℤ)
    (routes : List WalkRoute) (now sid : ℤ) (r : CompleteResult) (r2 : StartResult) :
    s.distance ≤ (gpsCallback s p).distance ∧
    s.stepCount ≤ (gpsCallback s p).stepCount ∧
    (startWalk s sel routes (.ok sid) now).1.distance = 0 ∧
    (startWalk s sel routes (.ok sid) now).1.stepCount = 0 ∧
    (∀ sid2 st2 : ℤ, s.currentSessionId = some sid2 → s.startTime = some st2 →
      (stopWalk s .ok).1.distance = 0 ∧ (stopWalk s .ok).1.stepCount = 0) ∧
    (r ≠ CompleteResult.ok →
      (stopWalk s r).1.distance = s.distance ∧
      (stopWalk s r).1.stepCount = s.stepCount) ∧
    ((∀ sid3 : ℤ, r2 ≠ StartResult.ok sid3) →
      (startWalk s sel routes r2 now).1.distance = s.distance ∧
      (startWalk s sel routes r2 now).1.stepCount = s.stepCount) ∧
    (pauseWalk s).distance = s.distance ∧
    (pauseWalk s).stepCount = s.stepCount ∧
    (tick s now).distance = s.distance ∧
    (tick s now).stepCount = s.stepCount := by
  have hstopzero : ∀ sid2 st2 : ℤ, s.currentSessionId = some sid2 → s.startTime = some st2 →
      (stopWalk s .ok).1.distance = 0 ∧ (stopWalk s .ok).1.stepCount = 0 := by
    intro sid2 st2 h1 h2
    simp [stopWalk, h1, h2]
  have hstopfail : r ≠ CompleteResult.ok →
      (stopWalk s r).1.distance = s.distance ∧
      (stopWalk s r).1.stepCount = s.stepCount := by
    intro hr
    unfold stopWalk
    cases s.currentSessionId with
    | none => exact ⟨rfl, rfl⟩
    | some sid4 =>
      cases s.startTime with
      | none => exact ⟨rfl, rfl⟩
      | some st4 =>
        cases r with
        | ok => exact absurd rfl hr
        | declined m => exact ⟨rfl, rfl⟩
        | netError dm em => exact ⟨rfl, rfl⟩
  have hstartfail : (∀ sid3 : ℤ, r2 ≠ StartResult.ok sid3) →
      (startWalk s sel routes r2 now).1.distance = s.distance ∧
      (startWalk s sel routes r2 now).1.stepCount = s.stepCount := by
    intro hr2
    cases r2 with
    | ok sid3 => exact absurd rfl (hr2 sid3)
    | declined m => exact ⟨rfl, rfl⟩
    | netError dm dd em st => exact ⟨rfl, rfl⟩
  have htick : (tick s now).distance = s.distance ∧ (tick s now).stepCount = s.stepCount := by
    unfold tick
    split
    · split
      · exact ⟨rfl, rfl⟩
      · exact ⟨rfl, rfl⟩
    · exact ⟨rfl, rfl⟩
  exact ⟨(gpsCallback_mono s p).1, (gpsCallback_mono s p).2, rfl, rfl,
    hstopzero, hstopfail, hstartfail, rfl, rfl, htick.1, htick.2⟩

/-- C9 witness: on the walked state with 100 m accumulated, a successful
stop zeroes the distance while a failed stop and a failed start preserve
it. -/
theorem accumulator_monotonic_witness :
    (stopWalk walkedState .ok).1.distance = 0 ∧
    (stopWalk walkedState (.declined "down")).1.distance = walkedState.distance ∧
    (startWalk walkedState none [] (.declined "down") 0).1.distance =
      walkedState.distance := by
  have h := accumulator_monotonic walkedState testP1 none [] 0 1
    (.declined "down") (.declined "down")
  refine ⟨(h.2.2.2.2.1 1 0 rfl rfl).1, ?_, ?_⟩
  · exact (h.2.2.2.2.2.1 (by intro hcontra; exact CompleteResult.noConfusion hcontra)).1
  · exact (h.2.2.2.2.2.2.1
      (by intro sid3 hcontra; exact StartResult.noConfusion hcontra)).1

/-- C10 counterexample: with no selected route and a loaded first shared
route whose id is 0, the request omits routeId entirely (JavaScript
treats the id 0 as falsy in selectedRouteId || routes[0].id and in
routeId || undefined), instead of attaching the first route id. -/
theorem start_request_counterexample :
    (startRequest none [{ id := 0 }]).routeId = none ∧
    0 < List.length [({ id := 0 } : WalkRoute)] := by
  exact ⟨rfl, by decide⟩

/-- C10 (amended): every startWalk invocation issues exactly one request
whose petId is the hard-coded 1; with no route selected the id of the
first loaded shared route is attached whenever one exists and its id is
nonzero; with no routes (or a first route id of 0, which JavaScript
truthiness drops) routeId is omitted from the request body. -/
theorem start_request_spec (s : WalkState) (sel : Option ℤ) (routes : List WalkRoute)
    (r : StartResult) (now : ℤ) :
    (startWalk s sel routes r now).2.2 = [startRequest sel routes] ∧
    (startRequest sel routes).petId = 1 ∧
    (∀ rt rts, routes = rt :: rts → sel = none → rt.id ≠ 0 →
      (startRequest sel routes).routeId = some rt.id) ∧
    (sel = none → routes = [] → (startRequest sel routes).routeId = none) := by
  refine ⟨?_, rfl, ?_, ?_⟩
  · cases r <;> rfl
  · intro rt rts hroutes hsel hid
    subst hroutes
    subst hsel
    simp [startRequest, chosenRouteId, hid]
  · intro hsel hroutes
    subst hroutes
    subst hsel
    rfl

/-- C10 witness: with no selection, a first shared route with id 5 is
attached; with no routes at all, routeId is omitted. -/
theorem start_request_spec_witness :
    (startRequest none [{ id := 5 }]).routeId = some 5 ∧
    (startRequest none []).routeId = none :=
  ⟨(start_request_spec idleState none [{ id := 5 }] (.ok 1) 0).2.2.1
      { id := 5 } [] rfl rfl (by decide),
    (start_request_spec idleState none [] (.ok 1) 0).2.2.2 rfl rfl⟩

end Pawvent
